import Mathlib

/-!
Shallow embedding of the `dnmos/weba` ETL repository (four Python files):

* `src/etl/pipeline/etl_pipeline.py` — the pipeline orchestrator,
* `src/etl/extract/extract_travelpayouts_payments.py` — the payment extractor,
* `src/etl/extract/extract_travelpayouts_payment_actions.py` — the payment-action extractor,
* `src/etl/extract/extract_travelpayouts_action_details.py` — the action-detail extractor.

The remote API, the file system and the subprocess boundary are modelled as
explicit environments; everything else (filename parsing, comment parsing,
ledger reads and writes, control flow of each script) is translated directly
from the Python source.  Python strings are `String`, Python `None`-able
values are `Option`, pandas data frames are records of the column lists and
the row values the scripts actually touch.
-/

/-! ## String helpers (Python primitives used by the source) -/

/-- `listStartsWith pat cs` is true iff `pat` is an initial segment of `cs`.
Used to model anchored regex-literal matching and Python's `str.startswith`. -/
def listStartsWith : List Char → List Char → Bool
  | [], _ => true
  | _ :: _, [] => false
  | p :: ps, c :: cs => p == c && listStartsWith ps cs

/-- `containsSub pat cs` models Python's substring test `pat in cs`. -/
def containsSub (pat : List Char) : List Char → Bool
  | [] => pat.isEmpty
  | c :: cs => listStartsWith pat (c :: cs) || containsSub pat cs

/-- Lexicographic `≤` on char lists by code point: Python's `str` comparison. -/
def strLeL : List Char → List Char → Bool
  | [], _ => true
  | _ :: _, [] => false
  | a :: as, b :: bs =>
    if a.toNat < b.toNat then true
    else if b.toNat < a.toNat then false
    else strLeL as bs

/-- Python's `a <= b` on strings (code-point lexicographic order). -/
def pyStrLe (a b : String) : Bool := strLeL a.data b.data

/-- Python's `a >= b` on strings; the orchestrator uses `year_month >= MIN_YEAR_MONTH`. -/
def pyStrGe (a b : String) : Bool := pyStrLe b a

/-- Characters after the last `/`, accumulator-style. -/
def afterLastSlash : List Char → List Char → List Char
  | [], acc => acc.reverse
  | c :: rest, acc =>
    if c == '/' then afterLastSlash rest [] else afterLastSlash rest (c :: acc)

/-- `os.path.basename` for POSIX paths: the part after the last `/`. -/
def basename (s : String) : String := String.mk (afterLastSlash s.data [])

/-- `os.path.join` for the two-component POSIX case used by the source. -/
def joinPath (a b : String) : String := a ++ "/" ++ b

/-- ASCII digit test, modelling `\d` of the source regexes (the values the
system feeds them are ASCII). -/
def isAsciiDigit (c : Char) : Bool := 48 ≤ c.toNat && c.toNat ≤ 57

/-- ASCII whitespace, modelling `\s` of the comment regex (space, tab, LF,
VT, FF, CR); the comments the system handles use ASCII spaces. -/
def isPySpace (c : Char) : Bool :=
  c == ' ' || c == '\t' || c == '\n' || c == '\r' || c.toNat == 11 || c.toNat == 12

/-- Lower-casing of one character as Python's `str.lower` / `re.IGNORECASE`
acts on the alphabets that occur in the source patterns: Cyrillic А–Я and
ASCII A–Z. -/
def lowerChar (c : Char) : Char :=
  if 0x410 ≤ c.toNat && c.toNat ≤ 0x42F then Char.ofNat (c.toNat + 0x20)
  else if 65 ≤ c.toNat && c.toNat ≤ 90 then Char.ofNat (c.toNat + 32)
  else c

/-! ## Filename pattern

Both the orchestrator and the payment-action extractor use
`re.search(r"tpo_payments_(\d{6})_EXTRACTED\.csv", filename)`; the
action-detail extractor uses the same shape with the
`tpo_payment_actions_` stem.  `\d{6}` is an exact-count quantifier, so a
match at a position is: the stem, exactly six digits, then the literal
tail; `re.search` takes the first position where this succeeds. -/

/-- Try the `<stem>(\d{6})<tail>` pattern anchored at the head of `cs`;
return the six captured digits on success. -/
def matchTaggedAt (stem tail cs : List Char) : Option String :=
  if listStartsWith stem cs then
    let rest := cs.drop stem.length
    let digits := rest.take 6
    if digits.length == 6 && digits.all isAsciiDigit &&
        listStartsWith tail (rest.drop 6) then
      some (String.mk digits)
    else none
  else none

/-- `re.search` for the `<stem>(\d{6})<tail>` pattern: first match anywhere. -/
def searchTagged (stem tail : List Char) : List Char → Option String
  | [] => none
  | c :: cs =>
    match matchTaggedAt stem tail (c :: cs) with
    | some ym => some ym
    | none => searchTagged stem tail cs

/-- Stem and tail of the payments filename pattern. -/
def PAYMENTS_FILE_STEM : String := "tpo_payments_"

/-- Shared literal tail of the per-period artifact filenames. -/
def EXTRACTED_TAIL : String := "_EXTRACTED.csv"

/-- Stem of the payment-actions filename pattern. -/
def ACTIONS_FILE_STEM : String := "tpo_payment_actions_"

/-- `etl_pipeline.extract_year_month_from_filename`: period from a
`tpo_payments_YYYYMM_EXTRACTED.csv` name, or `""` when no match
(the source returns the empty string in the `else` branch). -/
def extract_year_month_from_filename (filename : String) : String :=
  match searchTagged PAYMENTS_FILE_STEM.data EXTRACTED_TAIL.data filename.data with
  | some ym => ym
  | none => ""

/-! ## Comment pattern (payment extractor)

`extract_travelpayouts_payments.extract_year_month_from_comment` runs
`re.search(r"за (январь|…|декабрь)\s*(\d{4})", comment, re.IGNORECASE)` and
maps the month name through a fixed dictionary, producing `f"{year}{month}"`.
No month name is a prefix of another, so at each position at most one
alternative can match and first-alternative matching needs no backtracking;
`re.IGNORECASE` is modelled by lower-casing the input before the search. -/

/-- The month dictionary of the source, paired with the (lower-case) month
names of the regex alternation, in the source's alternation order. -/
def month_dict : List (List Char × String) :=
  [("январь".data, "01"), ("февраль".data, "02"), ("март".data, "03"),
   ("апрель".data, "04"), ("май".data, "05"), ("июнь".data, "06"),
   ("июль".data, "07"), ("август".data, "08"), ("сентябрь".data, "09"),
   ("октябрь".data, "10"), ("ноябрь".data, "11"), ("декабрь".data, "12")]

/-- Match one of the month alternatives at the head of `cs`; on success
return the month number and the remaining input. -/
def matchMonthAlt (cs : List Char) : List (List Char × String) → Option (String × List Char)
  | [] => none
  | (name, code) :: rest =>
    if listStartsWith name cs then some (code, cs.drop name.length)
    else matchMonthAlt cs rest

/-- `\d{4}` anchored at the head of `cs`: exactly four digits. -/
def takeFourDigits (cs : List Char) : Option String :=
  let d := cs.take 4
  if d.length == 4 && d.all isAsciiDigit then some (String.mk d) else none

/-- The whole comment pattern anchored at the head of `cs` (already
lower-cased): literal `"за "`, a month alternative, `\s*`, four digits;
result is `f"{year}{month}"` as in the source. -/
def matchCommentAt (cs : List Char) : Option String :=
  if listStartsWith "за ".data cs then
    match matchMonthAlt (cs.drop 3) month_dict with
    | some (code, rest) =>
      match takeFourDigits (rest.dropWhile isPySpace) with
      | some year => some (year ++ code)
      | none => none
    | none => none
  else none

/-- `re.search` for the comment pattern: first matching position. -/
def searchComment : List Char → Option String
  | [] => none
  | c :: cs =>
    match matchCommentAt (c :: cs) with
    | some ym => some ym
    | none => searchComment cs

/-- `extract_travelpayouts_payments.extract_year_month_from_comment`.
The argument is `none` for a non-string cell (pandas `NaN`), matching the
source's `isinstance(comment, str)` guard. -/
def extract_year_month_from_comment (comment : Option String) : Option String :=
  match comment with
  | none => none
  | some s => searchComment (s.data.map lowerChar)


/-! ## Constants of the orchestrator (`etl_pipeline.py`, lines 17–27)

`PROCESSED_DATA_PATH` is taken at its default value, as in a run without the
environment variable set. -/

/-- Base output directory (default of `os.getenv("PROCESSED_DATA_PATH", ...)`). -/
def TPO_API_DATA_PATH : String := "data/tpo_api_data"

/-- Subfolder of the per-period payment files. -/
def PAYMENTS_SUBFOLDER : String := "payments"

/-- Subfolder of the per-period payment-action files. -/
def PAYMENT_ACTIONS_SUBFOLDER : String := "payment_actions"

/-- Subfolder of the per-period action-detail files. -/
def ACTION_DETAILS_SUBFOLDER : String := "action_details"

/-- Minimum period the orchestrator is willing to process. -/
def MIN_YEAR_MONTH : String := "201801"

/-! ## The processed-period ledger (`etl_pipeline.py`, lines 29–60)

The ledger is the CSV file `processed_dates.csv` with a single column
`year_month`.  Its on-disk state is modelled as the list of raw cell texts in
file order, or as `absent` (no file yet) or `unreadable` (reading raises).

Reading the file back goes through `pd.read_csv`, which infers the column
dtype: a column whose cells are all decimal digit strings is parsed as
`int64`, otherwise as `object` (strings).  The membership test of
`is_period_processed` is `year_month in df["year_month"].values` with
`year_month : str`; against an `int64` ndarray a string never compares equal
(NumPy equality across these dtypes is elementwise `False`, or the
deprecated scalar-`False` path whose follow-up error is swallowed by the
`except` clause returning `False`), so membership can only succeed on an
`object` column.  `Cell` records the dtype a parsed cell ends up with. -/

/-- A parsed CSV cell: either an `int64` value or a string. -/
inductive Cell
  | intCell (n : Nat)
  | strCell (s : String)
deriving DecidableEq

/-- `isIntLike s` is true iff pandas parses cell text `s` as an integer
(for the non-negative decimal shapes this system produces). -/
def isIntLike (s : String) : Bool := !s.data.isEmpty && s.data.all isAsciiDigit

/-- Decimal digits to a number, left to right. -/
def digitsToNat : List Char → Nat → Nat
  | [], acc => acc
  | c :: cs, acc => digitsToNat cs (acc * 10 + (c.toNat - 48))

/-- `pd.read_csv` dtype inference for the `year_month` column: all-digit
cells become `int64` values, anything else keeps every cell a string. -/
def parseLedgerColumn (raw : List String) : List Cell :=
  if raw.all isIntLike then raw.map (fun s => Cell.intCell (digitsToNat s.data 0))
  else raw.map Cell.strCell

/-- On-disk state of `processed_dates.csv`: the raw cell texts of the
`year_month` column, or no file, or a file whose read raises. -/
inductive LedgerFile
  | absent
  | unreadable
  | ok (raw : List String)
deriving DecidableEq

/-- `etl_pipeline.is_period_processed`: `False` when the file is absent;
`False` when reading raises (the `except` branch); otherwise the string
`year_month` is tested for membership in the parsed column values. -/
def is_period_processed (ledger : LedgerFile) (year_month : String) : Bool :=
  match ledger with
  | .absent => false
  | .unreadable => false
  | .ok raw => (parseLedgerColumn raw).contains (Cell.strCell year_month)

/-- `etl_pipeline.mark_period_as_processed`: create the file with the single
row `year_month` when absent; otherwise read, concatenate the new row, and
rewrite (text round-trips cell by cell).  When the read raises, the source
only logs and the file is left as it was. -/
def mark_period_as_processed (ledger : LedgerFile) (year_month : String) : LedgerFile :=
  match ledger with
  | .absent => .ok [year_month]
  | .unreadable => .unreadable
  | .ok raw => .ok (raw ++ [year_month])

/-! ## Payment-action extractor (`extract_travelpayouts_payment_actions.py`)

The script reads one payments CSV, checks two required columns, recovers the
period from the filename, calls the actions endpoint once per `payment_uuid`
and accumulates the returned action rows; a per-payment API failure only
skips that payment.  If any actions were collected they are written to the
per-period actions file; a write failure, like an empty collection, is only
logged.  The function returns `True` unless reading, the column check, or
the filename match failed. -/

/-- The slice of a payments data frame the script touches: the column list
and the `payment_uuid` value of each row. -/
structure PaymentsDf where
  columns : List String
  rows : List String
deriving DecidableEq

/-- Outcome of reading a CSV with `pd.read_csv` inside `try`/`except`. -/
inductive ReadResult (α : Type)
  | fileNotFound
  | readError
  | ok (df : α)
deriving DecidableEq

/-- Outcome of `get_payment_actions` for one `payment_uuid`: the source
returns `None` on a request or JSON failure, and otherwise the parsed
response, which may or may not carry an `"actions"` list. -/
inductive ActionsApiResult
  | requestFail
  | missingActionsKey
  | actions (rows : List String)
deriving DecidableEq

/-- A file written by a stage: its path and its rows. -/
structure FileWrite where
  path : String
  rows : List String
deriving DecidableEq

/-- Environment of one `extract_payment_actions` invocation: the input path,
what reading it yields, the remote API as a function of `payment_uuid`, and
whether the CSV write succeeds. -/
structure ActionsEnv where
  payments_csv_path : String
  readPayments : ReadResult PaymentsDf
  getActions : String → ActionsApiResult
  writeOk : Bool

/-- The accumulation loop of steps 8–9: per payment, a response with an
`"actions"` key extends `all_actions`; `None` or a keyless response only
logs a warning. -/
def collect_all_actions (env : ActionsEnv) (df : PaymentsDf) : List String :=
  df.rows.foldl
    (fun acc payment_uuid =>
      match env.getActions payment_uuid with
      | .actions rows => acc ++ rows
      | _ => acc)
    []

/-- Path of the per-period actions file the stage writes (step 11). -/
def actions_filepath_for (year_month : String) : String :=
  joinPath (joinPath TPO_API_DATA_PATH PAYMENT_ACTIONS_SUBFOLDER)
    (ACTIONS_FILE_STEM ++ year_month ++ EXTRACTED_TAIL)

/-- `extract_payment_actions`: the returned flag and the file write it
performs (if any).  Read failure, a missing required column, and a filename
without a period each return `False` before any remote call; after the
collection loop the function returns `True` whether or not anything was
written. -/
def extract_payment_actions (env : ActionsEnv) : Bool × Option FileWrite :=
  match env.readPayments with
  | .fileNotFound => (false, none)
  | .readError => (false, none)
  | .ok payments_df =>
    if !(payments_df.columns.contains "payment_uuid") ||
        !(payments_df.columns.contains "year_month") then
      (false, none)
    else
      match searchTagged PAYMENTS_FILE_STEM.data EXTRACTED_TAIL.data
          (basename env.payments_csv_path).data with
      | none => (false, none)
      | some year_month =>
        let all_actions := collect_all_actions env payments_df
        if !all_actions.isEmpty then
          if env.writeOk then
            (true, some ⟨actions_filepath_for year_month, all_actions⟩)
          else
            (true, none)
        else
          (true, none)

/-- The `__main__` block of the script: it parses the one positional
argument, calls `extract_payment_actions`, DISCARDS the returned flag, and
falls off the end — so the interpreter always exits with status 0.  The
result is the exit status paired with the call's result. -/
def payment_actions_main (env : ActionsEnv) : Nat × (Bool × Option FileWrite) :=
  (0, extract_payment_actions env)

/-! ## Action-detail extractor (`extract_travelpayouts_action_details.py`)

All the failure branches of its `__main__` block call the bare builtin
`exit()`, which raises `SystemExit(None)` — and a `None` code makes the
interpreter exit with STATUS 0, the same status as the success path.  The
per-action work (`get_action_details` / `process_action_details`) yields an
`Option`al processed row per `action_id`; rows are accumulated and written
to the per-period details file, an empty accumulation or a write failure
being only logged. -/

/-- The slice of an actions data frame the script touches: the column list
and the `action_id` value of each row (`rows = []` is an empty frame). -/
structure ActionsDf where
  columns : List String
  rows : List String
deriving DecidableEq

/-- Environment of one action-detail run: the input path, what reading it
yields, the processed detail row per `action_id` (`none` when the remote
call or the flattening fails), and whether the CSV write succeeds. -/
structure DetailsEnv where
  actions_csv_path : String
  readActions : ReadResult ActionsDf
  getDetails : String → Option (List (String × String))
  writeOk : Bool

/-- Path of the per-period details file (step 10). -/
def details_filepath_for (year_month : String) : String :=
  joinPath (joinPath TPO_API_DATA_PATH ACTION_DETAILS_SUBFOLDER)
    ("tpo_action_details_" ++ year_month ++ EXTRACTED_TAIL)

/-- A details file written by the stage: path and flattened rows (each row
a key/value list). -/
structure DetailsWrite where
  path : String
  rows : List (List (String × String))
deriving DecidableEq

/-- The `__main__` block of the script: exit status (every `exit()` is the
bare builtin, hence status 0, and the fall-through end is status 0 as well)
paired with the file write it performs, if any. -/
def action_details_main (env : DetailsEnv) : Nat × Option DetailsWrite :=
  match env.readActions with
  | .fileNotFound => (0, none)
  | .readError => (0, none)
  | .ok actions_df =>
    if actions_df.rows.isEmpty then (0, none)
    else if !(actions_df.columns.contains "action_id") then (0, none)
    else
      match searchTagged ACTIONS_FILE_STEM.data EXTRACTED_TAIL.data
          (basename env.actions_csv_path).data with
      | none => (0, none)
      | some year_month =>
        let all_action_details := actions_df.rows.filterMap env.getDetails
        if !all_action_details.isEmpty && env.writeOk then
          (0, some ⟨details_filepath_for year_month, all_action_details⟩)
        else
          (0, none)

/-! ## Payment extractor output partitioning (`extract_travelpayouts_payments.py`)

After the single API call the script tags every record with
`extract_year_month_from_comment(comment)`, drops the rows whose tag is
missing (`df[df['year_month'].notna()]`), and writes one
`tpo_payments_<ym>_EXTRACTED.csv` per unique tag, in order of first
appearance, each holding exactly the rows with that tag. -/

/-- The slice of a payment record the partitioning touches. -/
structure PaymentRecord where
  payment_uuid : String
  comment : Option String
deriving DecidableEq

/-- The records surviving the `notna` filter, with their derived tag. -/
def tag_records (recs : List PaymentRecord) : List (PaymentRecord × String) :=
  recs.filterMap
    (fun r => (extract_year_month_from_comment r.comment).map (fun ym => (r, ym)))

/-- `Series.unique`: values in order of first appearance. -/
def uniqueInOrder (seen : List String) : List String → List String
  | [] => []
  | x :: xs =>
    if seen.contains x then uniqueInOrder seen xs
    else x :: uniqueInOrder (x :: seen) xs

/-- The per-period output files of the payment extractor: for each unique
tag, the file name and the rows carrying that tag. -/
def payment_output_files (recs : List PaymentRecord) : List (String × List PaymentRecord) :=
  (uniqueInOrder [] ((tag_records recs).map (fun p => p.2))).map
    (fun ym =>
      (PAYMENTS_FILE_STEM ++ ym ++ EXTRACTED_TAIL,
       (tag_records recs).filterMap (fun p => if p.2 == ym then some p.1 else none)))

/-! ## Pipeline orchestrator (`etl_pipeline.py`, `__main__`, lines 84–141)

The subprocess boundary is an oracle environment: `payments_extract_ok` is
the result of `run_script` on the payment extractor, and the two per-path
oracles are the results of `run_script` on the downstream extractors
(`run_script` returns `True` iff the subprocess ran and exited with status
0, because of `check=True`).  The observable behaviour of a run is its
final ledger state together with the ordered trace of the downstream
invocations and ledger marks it performed. -/

/-- One observable step of the orchestrator. -/
inductive Event
  | runActions (path : String)
  | runDetails (path : String)
  | marked (year_month : String)
deriving DecidableEq

/-- Mutable state threaded through the per-file loop. -/
structure PipeState where
  ledger : LedgerFile
  events : List Event
deriving DecidableEq

/-- Environment of one orchestrator run. -/
structure Env where
  payments_extract_ok : Bool
  files : List String
  actions_script_ok : String → Bool
  details_script_ok : String → Bool
  ledger0 : LedgerFile

/-- Step 2 of `__main__`: the `glob` result with every path containing
`payments_metadata` filtered out, sorted ascending by
`extract_year_month_from_filename` (Python's stable `list.sort(key=...)`,
rendered as a stable insertion sort over the same key and the same
string order). -/
def insertByKey (key : String → String) (f : String) : List String → List String
  | [] => [f]
  | g :: gs =>
    if pyStrLe (key f) (key g) then f :: g :: gs else g :: insertByKey key f gs

/-- Stable insertion sort by a key function. -/
def sortByKey (key : String → String) : List String → List String
  | [] => []
  | f :: fs => insertByKey key f (sortByKey key fs)

/-- Lines 93–97: filter out the metadata index, sort by period. -/
def discover_candidate_files (files : List String) : List String :=
  sortByKey extract_year_month_from_filename
    (files.filter (fun f => !(containsSub "payments_metadata".data f.data)))

/-- The body of the per-file loop (lines 100–137): re-extract the period
from the basename; when it parses, is not below `MIN_YEAR_MONTH`, and is
not already in the ledger, run the payment-action extractor on the payments
path, on its success run the action-detail extractor on the derived actions
path, and on its success mark the period processed.  Every other branch
only logs. -/
def process_one_file (env : Env) (st : PipeState) (path : String) : PipeState :=
  match searchTagged PAYMENTS_FILE_STEM.data EXTRACTED_TAIL.data (basename path).data with
  | none => st
  | some year_month =>
    if pyStrGe year_month MIN_YEAR_MONTH && !(is_period_processed st.ledger year_month) then
      let st1 : PipeState := { st with events := st.events ++ [Event.runActions path] }
      if env.actions_script_ok path then
        let actions_csv_filepath := actions_filepath_for year_month
        let st2 : PipeState :=
          { st1 with events := st1.events ++ [Event.runDetails actions_csv_filepath] }
        if env.details_script_ok actions_csv_filepath then
          { ledger := mark_period_as_processed st2.ledger year_month,
            events := st2.events ++ [Event.marked year_month] }
        else st2
      else st1
    else st

/-- The whole `__main__` block: when the payment extractor fails the run
only logs and ends (the ledger is untouched and nothing else runs);
otherwise the candidate files are discovered and processed in order. -/
def etl_pipeline_run (env : Env) : PipeState :=
  if env.payments_extract_ok then
    (discover_candidate_files env.files).foldl (process_one_file env)
      { ledger := env.ledger0, events := [] }
  else
    { ledger := env.ledger0, events := [] }

/-- Periods whose processing was started, in trace order (one
`runActions` event per started period). -/
def started_periods (st : PipeState) : List String :=
  st.events.filterMap
    (fun e =>
      match e with
      | Event.runActions path => some (extract_year_month_from_filename (basename path))
      | _ => none)

/-- Periods marked processed, in trace order. -/
def marked_periods (st : PipeState) : List String :=
  st.events.filterMap
    (fun e =>
      match e with
      | Event.marked ym => some ym
      | _ => none)

/-! ## Concrete scenarios used by the claim theorems and witnesses -/

/-- Path of a per-period payments file as the payment extractor writes it
and `glob` returns it. -/
def payments_path (ym : String) : String :=
  joinPath (joinPath TPO_API_DATA_PATH PAYMENTS_SUBFOLDER)
    (PAYMENTS_FILE_STEM ++ ym ++ EXTRACTED_TAIL)

/-- Payment-action stage input for one payments file with one payment whose
every remote call fails: the stage collects zero actions. -/
def c1ActionsEnv : ActionsEnv :=
  { payments_csv_path := payments_path "202001"
    readPayments := ReadResult.ok ⟨["payment_uuid", "year_month", "comment"], ["uuid-1"]⟩
    getActions := fun _ => ActionsApiResult.requestFail
    writeOk := true }

/-- Action-detail stage input for the same period: the actions stage above
wrote no file, so reading the actions path raises `FileNotFoundError`. -/
def c1DetailsEnv : DetailsEnv :=
  { actions_csv_path := actions_filepath_for "202001"
    readActions := ReadResult.fileNotFound
    getDetails := fun _ => none
    writeOk := true }

/-- Orchestrator run over that single period, with the two downstream
`run_script` results derived from the exit statuses of the modelled
subprocesses (`check=True` succeeds iff the exit status is 0). -/
def c1Env : Env :=
  { payments_extract_ok := true
    files := [payments_path "202001"]
    actions_script_ok := fun _ => (payment_actions_main c1ActionsEnv).1 == 0
    details_script_ok := fun _ => (action_details_main c1DetailsEnv).1 == 0
    ledger0 := LedgerFile.absent }

/-- Payment-action stage invoked on a path whose file does not exist. -/
def c2PaMissingFile : ActionsEnv :=
  { payments_csv_path := payments_path "202001"
    readPayments := ReadResult.fileNotFound
    getActions := fun _ => ActionsApiResult.requestFail
    writeOk := true }

/-- Payment-action stage invoked on a readable file missing the required
`payment_uuid` and `year_month` columns. -/
def c2PaMissingColumn : ActionsEnv :=
  { payments_csv_path := payments_path "202001"
    readPayments := ReadResult.ok ⟨["pay_date"], []⟩
    getActions := fun _ => ActionsApiResult.requestFail
    writeOk := true }

/-- Payment-action stage invoked on a filename carrying no period. -/
def c2PaBadFilename : ActionsEnv :=
  { payments_csv_path := "data/tpo_api_data/payments/payments.csv"
    readPayments := ReadResult.ok ⟨["payment_uuid", "year_month"], ["uuid-1"]⟩
    getActions := fun _ => ActionsApiResult.requestFail
    writeOk := true }

/-- Action-detail stage invoked on a path whose file does not exist. -/
def c2AdMissingFile : DetailsEnv :=
  { actions_csv_path := actions_filepath_for "202001"
    readActions := ReadResult.fileNotFound
    getDetails := fun _ => none
    writeOk := true }

/-- Action-detail stage invoked on a readable file missing `action_id`. -/
def c2AdMissingColumn : DetailsEnv :=
  { actions_csv_path := actions_filepath_for "202001"
    readActions := ReadResult.ok ⟨["id"], ["a1"]⟩
    getDetails := fun _ => none
    writeOk := true }

/-- Action-detail stage invoked on a filename carrying no period. -/
def c2AdBadFilename : DetailsEnv :=
  { actions_csv_path := "data/tpo_api_data/payment_actions/actions.csv"
    readActions := ReadResult.ok ⟨["action_id"], ["a1"]⟩
    getDetails := fun _ => none
    writeOk := true }

/-- Three consecutive periods; the action-detail stage fails exactly for
period 202002 and every other downstream invocation succeeds. -/
def c3Env : Env :=
  { payments_extract_ok := true
    files := [payments_path "202003", payments_path "202001", payments_path "202002"]
    actions_script_ok := fun _ => true
    details_script_ok := fun p => !(p == actions_filepath_for "202002")
    ledger0 := LedgerFile.absent }

/-- A stage oracle that always fails, for the C3 witness. -/
def c3WitnessEnv : Env :=
  { payments_extract_ok := true
    files := [payments_path "202001"]
    actions_script_ok := fun _ => false
    details_script_ok := fun _ => true
    ledger0 := LedgerFile.absent }

/-- A run whose initial payment extraction fails, over a non-empty file set
and a non-empty ledger. -/
def c4Env : Env :=
  { payments_extract_ok := false
    files := [payments_path "202001"]
    actions_script_ok := fun _ => true
    details_script_ok := fun _ => true
    ledger0 := LedgerFile.ok ["201901"] }

/-- All-success orchestrator environment over a given discovery order. -/
def c6Env (files : List String) : Env :=
  { payments_extract_ok := true
    files := files
    actions_script_ok := fun _ => true
    details_script_ok := fun _ => true
    ledger0 := LedgerFile.absent }

/-- Every discovery order of the three period files of the C6 scenario. -/
def c6Orders : List (List String) :=
  [[payments_path "202001", payments_path "202002", payments_path "202003"],
   [payments_path "202001", payments_path "202003", payments_path "202002"],
   [payments_path "202002", payments_path "202001", payments_path "202003"],
   [payments_path "202002", payments_path "202003", payments_path "202001"],
   [payments_path "202003", payments_path "202001", payments_path "202002"],
   [payments_path "202003", payments_path "202002", payments_path "202001"]]

/-- A below-minimum period file together with a ledger that already
mentions the period. -/
def c7Env : Env :=
  { payments_extract_ok := true
    files := [payments_path "201712"]
    actions_script_ok := fun _ => true
    details_script_ok := fun _ => true
    ledger0 := LedgerFile.ok ["201712"] }

/-- Discovery input holding the metadata index, a non-matching name and one
well-formed period file. -/
def c8Files : List String :=
  ["data/tpo_api_data/payments/tpo_payments_metadata.csv",
   "data/tpo_api_data/payments/tpo_payments_2024_EXTRACTED.csv",
   payments_path "202405"]

/-- All-success run over `c8Files`. -/
def c8Env : Env :=
  { payments_extract_ok := true
    files := c8Files
    actions_script_ok := fun _ => true
    details_script_ok := fun _ => true
    ledger0 := LedgerFile.absent }

/-- Two payment records, one whose comment carries a period and one whose
comment carries none. -/
def c9Recs : List PaymentRecord :=
  [⟨"uuid-a", some "Выплата за март 2024"⟩, ⟨"uuid-b", some "бонус"⟩]

/-- Payment-action stage input with two payments and every remote call
failing, for the C10 witness. -/
def c10Env : ActionsEnv :=
  { payments_csv_path := payments_path "202001"
    readPayments := ReadResult.ok ⟨["payment_uuid", "year_month"], ["uuid-1", "uuid-2"]⟩
    getActions := fun _ => ActionsApiResult.requestFail
    writeOk := true }

/-- An event is about a period at or above `MIN_YEAR_MONTH`: the invariant
the per-file loop maintains on everything it appends to the trace. -/
def event_min_ok : Event → Prop
  | Event.runActions path =>
    ∃ ym,
      searchTagged PAYMENTS_FILE_STEM.data EXTRACTED_TAIL.data (basename path).data = some ym ∧
        pyStrGe ym MIN_YEAR_MONTH = true
  | Event.runDetails _ => True
  | Event.marked ym => pyStrGe ym MIN_YEAR_MONTH = true

/-! ## Helper lemmas about the per-file loop -/

/-- Every event present after one loop step was either already present or
satisfies the minimum-period invariant. -/
theorem process_one_file_event_mem (env : Env) (st : PipeState) (path : String) (e : Event)
    (h : e ∈ (process_one_file env st path).events) :
    e ∈ st.events ∨ event_min_ok e := by
  unfold process_one_file at h
  cases hm : searchTagged PAYMENTS_FILE_STEM.data EXTRACTED_TAIL.data (basename path).data with
  | none => rw [hm] at h; exact Or.inl h
  | some ym =>
    rw [hm] at h
    simp only at h
    by_cases hc : (pyStrGe ym MIN_YEAR_MONTH && !(is_period_processed st.ledger ym)) = true
    · have hge : pyStrGe ym MIN_YEAR_MONTH = true := by
        have hc2 := hc
        simp only [Bool.and_eq_true] at hc2
        exact hc2.1
      rw [if_pos hc] at h
      by_cases ha : env.actions_script_ok path = true
      · rw [if_pos ha] at h
        by_cases hd : env.details_script_ok (actions_filepath_for ym) = true
        · rw [if_pos hd] at h
          simp only [List.mem_append, List.mem_singleton] at h
          rcases h with ((h | h) | h) | h
          · exact Or.inl h
          · exact Or.inr (h ▸ ⟨ym, hm, hge⟩)
          · exact Or.inr (h ▸ trivial)
          · exact Or.inr (h ▸ hge)
        · rw [if_neg hd] at h
          simp only [List.mem_append, List.mem_singleton] at h
          rcases h with (h | h) | h
          · exact Or.inl h
          · exact Or.inr (h ▸ ⟨ym, hm, hge⟩)
          · exact Or.inr (h ▸ trivial)
      · rw [if_neg ha] at h
        simp only [List.mem_append, List.mem_singleton] at h
        rcases h with h | h
        · exact Or.inl h
        · exact Or.inr (h ▸ ⟨ym, hm, hge⟩)
    · rw [if_neg hc] at h
      exact Or.inl h

/-- The loop over a file list only adds invariant-satisfying events. -/
theorem foldl_event_mem (env : Env) (l : List String) :
    ∀ (st : PipeState) (e : Event),
      e ∈ (l.foldl (process_one_file env) st).events → e ∈ st.events ∨ event_min_ok e := by
  induction l with
  | nil => intro st e h; exact Or.inl h
  | cons f fs ih =>
    intro st e h
    rcases ih (process_one_file env st f) e h with h1 | h1
    · exact process_one_file_event_mem env st f e h1
    · exact Or.inr h1

/-- Every event of a whole run satisfies the minimum-period invariant. -/
theorem etl_pipeline_run_event_min_ok (env : Env) (e : Event)
    (h : e ∈ (etl_pipeline_run env).events) : event_min_ok e := by
  unfold etl_pipeline_run at h
  by_cases hp : env.payments_extract_ok = true
  · rw [if_pos hp] at h
    rcases foldl_event_mem env (discover_candidate_files env.files) _ e h with h1 | h1
    · exact absurd h1 (List.not_mem_nil e)
    · exact h1
  · rw [if_neg hp] at h
    exact absurd h (List.not_mem_nil e)

/-- A loop step whose payment-action invocation fails leaves the ledger as
it was. -/
theorem process_one_file_actions_fail (env : Env) (st : PipeState) (path : String)
    (h : env.actions_script_ok path = false) :
    (process_one_file env st path).ledger = st.ledger := by
  unfold process_one_file
  cases hm : searchTagged PAYMENTS_FILE_STEM.data EXTRACTED_TAIL.data (basename path).data with
  | none => rfl
  | some ym =>
    simp only
    by_cases hc : (pyStrGe ym MIN_YEAR_MONTH && !(is_period_processed st.ledger ym)) = true
    · rw [if_pos hc, if_neg (by rw [h]; exact Bool.false_ne_true)]
    · rw [if_neg hc]

/-- A loop step whose action-detail invocation fails leaves the ledger as
it was. -/
theorem process_one_file_details_fail (env : Env) (st : PipeState) (path ym : String)
    (hm : searchTagged PAYMENTS_FILE_STEM.data EXTRACTED_TAIL.data (basename path).data = some ym)
    (h : env.details_script_ok (actions_filepath_for ym) = false) :
    (process_one_file env st path).ledger = st.ledger := by
  unfold process_one_file
  rw [hm]
  simp only
  by_cases hc : (pyStrGe ym MIN_YEAR_MONTH && !(is_period_processed st.ledger ym)) = true
  · rw [if_pos hc]
    by_cases ha : env.actions_script_ok path = true
    · rw [if_pos ha, if_neg (by rw [h]; exact Bool.false_ne_true)]
    · rw [if_neg ha]
  · rw [if_neg hc]

/-- A record whose comment yields no period is in no per-period output list
of the payment extractor. -/
theorem untagged_record_not_in_output (recs : List PaymentRecord) (r : PaymentRecord)
    (hr : extract_year_month_from_comment r.comment = none)
    (f : String × List PaymentRecord) (hf : f ∈ payment_output_files recs) :
    r ∉ f.2 := by
  intro hmem
  obtain ⟨ym, hym, rfl⟩ := List.mem_map.mp hf
  obtain ⟨p, hp, hpr⟩ := List.mem_filterMap.mp hmem
  obtain ⟨rec, hrec, hmap⟩ := List.mem_filterMap.mp hp
  by_cases hc : (p.2 == ym) = true
  · rw [if_pos hc] at hpr
    have hpr1 : p.1 = r := Option.some.inj hpr
    obtain ⟨ymv, hymv, hpair⟩ := Option.map_eq_some'.mp hmap
    have h1 : rec = r := by
      have : (rec, ymv).1 = p.1 := by rw [hpair]
      rw [hpr1] at this
      exact this
    rw [h1, hr] at hymv
    exact Option.noConfusion hymv
  · rw [if_neg hc] at hpr
    exact Option.noConfusion hpr

/-! ## Claim theorems -/

/-- C1: the claim says the orchestrator marks a period only after both
downstream stages report success, and that no reachable run state has a
period marked done while a downstream artifact is missing.  The first half
holds of the control flow, but the artifact half is false on the code: in
the run below the payment-action stage collects zero actions, returns
success and writes NO artifact, its process exits with status 0 (its
`__main__` discards the flag), the action-detail stage invoked on the
missing actions file exits with status 0 as well (bare `exit()`), so both
`run_script` calls report success and the period is marked done with both
downstream artifacts absent. -/
theorem c1_period_marked_while_artifact_missing :
    extract_payment_actions c1ActionsEnv = (true, none) ∧
    payment_actions_main c1ActionsEnv = (0, (true, none)) ∧
    action_details_main c1DetailsEnv = (0, none) ∧
    (etl_pipeline_run c1Env).ledger = LedgerFile.ok ["202001"] ∧
    (etl_pipeline_run c1Env).events =
      [Event.runActions (payments_path "202001"),
       Event.runDetails (actions_filepath_for "202001"),
       Event.marked "202001"] := by
  decide

/-- C2: the claim says each standalone extractor exits with a non-zero
status on an input file that is not found, a missing required column, or a
missing/invalid period in the filename.  On the code every one of these
paths exits with status 0: the payment-action `__main__` ignores the
`False` return of `extract_payment_actions`, and the action-detail
`__main__` aborts through the bare builtin `exit()`, i.e.
`SystemExit(None)`, which is exit status 0. -/
theorem c2_unrecoverable_failures_exit_zero :
    payment_actions_main c2PaMissingFile = (0, (false, none)) ∧
    payment_actions_main c2PaMissingColumn = (0, (false, none)) ∧
    payment_actions_main c2PaBadFilename = (0, (false, none)) ∧
    action_details_main c2AdMissingFile = (0, none) ∧
    action_details_main c2AdMissingColumn = (0, none) ∧
    action_details_main c2AdBadFilename = (0, none) := by
  decide

/-- C3: a downstream-stage failure abandons only its own period — a loop
step whose payment-action or action-detail invocation reports failure
leaves the ledger untouched — and the run goes on: with the action-detail
stage failing exactly for 202002, the final ledger holds 202001 and 202003
but not 202002, and all three periods were still evaluated in order. -/
theorem c3_downstream_failure_abandons_only_that_period :
    (∀ (env : Env) (st : PipeState) (path : String),
        env.actions_script_ok path = false →
        (process_one_file env st path).ledger = st.ledger) ∧
    (∀ (env : Env) (st : PipeState) (path ym : String),
        searchTagged PAYMENTS_FILE_STEM.data EXTRACTED_TAIL.data (basename path).data = some ym →
        env.details_script_ok (actions_filepath_for ym) = false →
        (process_one_file env st path).ledger = st.ledger) ∧
    (etl_pipeline_run c3Env).ledger = LedgerFile.ok ["202001", "202003"] ∧
    marked_periods (etl_pipeline_run c3Env) = ["202001", "202003"] ∧
    started_periods (etl_pipeline_run c3Env) = ["202001", "202002", "202003"] := by
  refine ⟨process_one_file_actions_fail, ?_, by decide, by decide, by decide⟩
  intro env st path ym hm h
  exact process_one_file_details_fail env st path ym hm h

/-- Witness for C3 at a concrete run whose payment-action stage fails. -/
theorem c3_witness :
    (process_one_file c3WitnessEnv { ledger := LedgerFile.absent, events := [] }
        (payments_path "202001")).ledger = LedgerFile.absent :=
  c3_downstream_failure_abandons_only_that_period.1 c3WitnessEnv
    { ledger := LedgerFile.absent, events := [] } (payments_path "202001") (by decide)

/-- C4: when the initial payment-extractor invocation fails, the run ends
at once: no period discovery, no downstream invocation, the ledger exactly
as it started. -/
theorem c4_payment_extract_failure_aborts_run (env : Env)
    (h : env.payments_extract_ok = false) :
    etl_pipeline_run env = { ledger := env.ledger0, events := [] } := by
  unfold etl_pipeline_run
  rw [h]
  simp

/-- Witness for C4 on a concrete failing environment. -/
theorem c4_witness :
    etl_pipeline_run c4Env = { ledger := LedgerFile.ok ["201901"], events := [] } :=
  c4_payment_extract_failure_aborts_run c4Env rfl

/-- C5: the claim says `is_processed(p)` is true iff `p` was marked at
least once (and false on an absent ledger).  The absent half holds, but
the iff fails on the code: `mark_period_as_processed` writes the period as
text, `pd.read_csv` re-reads the all-digit column as `int64`, and the
string membership test against an `int64` array is always false — a period
just marked is still reported unprocessed. -/
theorem c5_is_processed_false_after_mark :
    is_period_processed LedgerFile.absent "202001" = false ∧
    mark_period_as_processed LedgerFile.absent "202001" = LedgerFile.ok ["202001"] ∧
    is_period_processed (mark_period_as_processed LedgerFile.absent "202001") "202001" = false := by
  decide

/-- C6: for every discovery order of the payment files of periods 202003,
202001, 202002, the orchestrator starts and completes the periods in
ascending order 202001, 202002, 202003. -/
theorem c6_periods_processed_in_ascending_order (l : List String) (hl : l ∈ c6Orders) :
    started_periods (etl_pipeline_run (c6Env l)) = ["202001", "202002", "202003"] ∧
      marked_periods (etl_pipeline_run (c6Env l)) = ["202001", "202002", "202003"] := by
  simp only [c6Orders, List.mem_cons, List.not_mem_nil, or_false] at hl
  rcases hl with rfl | rfl | rfl | rfl | rfl | rfl <;> decide

/-- Witness for C6 at the discovery order of the claim,
`["202003", "202001", "202002"]`. -/
theorem c6_witness :
    started_periods (etl_pipeline_run (c6Env
        [payments_path "202003", payments_path "202001", payments_path "202002"])) =
      ["202001", "202002", "202003"] ∧
      marked_periods (etl_pipeline_run (c6Env
          [payments_path "202003", payments_path "202001", payments_path "202002"])) =
        ["202001", "202002", "202003"] :=
  c6_periods_processed_in_ascending_order _ (by decide)

/-- C7: a period strictly below `MIN_YEAR_MONTH` is never handed to a
downstream extractor and never marked processed, in any environment —
whatever the ledger holds. -/
theorem c7_below_minimum_never_processed (env : Env) (ym : String)
    (hlt : pyStrGe ym MIN_YEAR_MONTH = false) :
    Event.marked ym ∉ (etl_pipeline_run env).events ∧
      ∀ path,
        searchTagged PAYMENTS_FILE_STEM.data EXTRACTED_TAIL.data (basename path).data = some ym →
        Event.runActions path ∉ (etl_pipeline_run env).events := by
  constructor
  · intro h
    have hok : pyStrGe ym MIN_YEAR_MONTH = true :=
      etl_pipeline_run_event_min_ok env (Event.marked ym) h
    rw [hlt] at hok
    exact Bool.false_ne_true hok
  · intro path hpath h
    obtain ⟨ym2, hm2, hge2⟩ :=
      etl_pipeline_run_event_min_ok env (Event.runActions path) h
    rw [hpath] at hm2
    have : ym2 = ym := (Option.some.inj hm2).symm
    rw [this, hlt] at hge2
    exact Bool.false_ne_true hge2

/-- Witness for C7: period 201712 is never marked even when the ledger
already mentions it and its payments file is discovered. -/
theorem c7_witness : Event.marked "201712" ∉ (etl_pipeline_run c7Env).events :=
  (c7_below_minimum_never_processed c7Env "201712" (by decide)).1

/-- C8: `tpo_payments_202405_EXTRACTED.csv` yields period 202405; the
metadata index is excluded from the candidate list by the
`payments_metadata` filter; a name not matching the pattern yields the
empty identifier and is skipped without stopping the run, which goes on to
process the well-formed file. -/
theorem c8_period_discovery :
    extract_year_month_from_filename "tpo_payments_202405_EXTRACTED.csv" = "202405" ∧
    extract_year_month_from_filename "tpo_payments_metadata.csv" = "" ∧
    extract_year_month_from_filename "tpo_payments_2024_EXTRACTED.csv" = "" ∧
    discover_candidate_files c8Files =
      ["data/tpo_api_data/payments/tpo_payments_2024_EXTRACTED.csv", payments_path "202405"] ∧
    (etl_pipeline_run c8Env).events =
      [Event.runActions (payments_path "202405"),
       Event.runDetails (actions_filepath_for "202405"),
       Event.marked "202405"] ∧
    (etl_pipeline_run c8Env).ledger = LedgerFile.ok ["202405"] := by
  decide

/-- C9: a comment containing "за март 2024" yields period 202403, also
under different letter case; a comment with no month/year pattern yields
no period; and a record whose comment yields no period is excluded from
every per-period output file. -/
theorem c9_comment_period_derivation :
    extract_year_month_from_comment (some "Выплата за март 2024") = some "202403" ∧
    extract_year_month_from_comment (some "Выплата ЗА МАРТ 2024") = some "202403" ∧
    extract_year_month_from_comment (some "одноразовый бонус") = none ∧
    ∀ (recs : List PaymentRecord) (r : PaymentRecord),
      extract_year_month_from_comment r.comment = none →
      ∀ f ∈ payment_output_files recs, r ∉ f.2 :=
  ⟨by decide, by decide, by decide, untagged_record_not_in_output⟩

/-- Witness for C9: the untagged record of `c9Recs` is not in the one
output file the tagged record produces. -/
theorem c9_witness :
    (⟨"uuid-b", some "бонус"⟩ : PaymentRecord) ∉
      ((PAYMENTS_FILE_STEM ++ "202403" ++ EXTRACTED_TAIL,
          [(⟨"uuid-a", some "Выплата за март 2024"⟩ : PaymentRecord)]) :
        String × List PaymentRecord).2 :=
  c9_comment_period_derivation.2.2.2 c9Recs ⟨"uuid-b", some "бонус"⟩ (by decide) _ (by decide)

/-- C10: a payment-action run over a valid payments file (required columns
present, period in the filename) that collects zero action rows still
returns `True` and writes no actions file — the stage reports success with
the period's actions artifact absent. -/
theorem c10_zero_actions_success_without_artifact (env : ActionsEnv) (df : PaymentsDf)
    (ym : String)
    (hread : env.readPayments = ReadResult.ok df)
    (hc1 : df.columns.contains "payment_uuid" = true)
    (hc2 : df.columns.contains "year_month" = true)
    (hym : searchTagged PAYMENTS_FILE_STEM.data EXTRACTED_TAIL.data
        (basename env.payments_csv_path).data = some ym)
    (hempty : collect_all_actions env df = []) :
    extract_payment_actions env = (true, none) := by
  unfold extract_payment_actions
  rw [hread]
  simp only [hc1, hc2, Bool.not_true, Bool.or_self, Bool.false_eq_true, if_false]
  rw [hym]
  simp only [hempty, List.isEmpty_nil, Bool.not_true, Bool.false_eq_true, if_false]

/-- Witness for C10 on a concrete environment whose every remote call
fails. -/
theorem c10_witness : extract_payment_actions c10Env = (true, none) :=
  c10_zero_actions_success_without_artifact c10Env
    ⟨["payment_uuid", "year_month"], ["uuid-1", "uuid-2"]⟩ "202001"
    rfl (by decide) (by decide) (by decide) (by decide)
